import Mathlib

/-!
Verification of the cryptographic contract-signing simulation (`src/PKI.py`).

The file shallowly embeds the program: the glue logic of `PKI.py`
(hashing, the exception-masking signature check, the append-only signed
document with its JSON export, and the `timestamp|message` confidential
channel with its split-on-first-separator decryption) is translated
directly from the source.  The primitives of the external `cryptography`
library (RSA key generation, PSS signing/verification, OAEP
encryption/decryption) are not part of the repository; they are modelled
from the specification's stated contract, each marked `Modelled from the
spec:` in its doc comment.  SHA-256 is implemented in full (FIPS 180-4).

Machine words are `Nat` with explicit `% 2 ^ 32` reductions.
-/

namespace PKI

/-! ### SHA-256 (the library hash used by `generar_hash`) -/

/-- Right rotation of a 32-bit word represented as a `Nat`. -/
def rotr32 (x n : ℕ) : ℕ := ((x / 2 ^ n) + (x % 2 ^ n) * 2 ^ (32 - n)) % 2 ^ 32

/-- Logical right shift of a 32-bit word. -/
def shr32 (x n : ℕ) : ℕ := x / 2 ^ n

def bigSigma0 (x : ℕ) : ℕ := rotr32 x 2 ^^^ rotr32 x 13 ^^^ rotr32 x 22

def bigSigma1 (x : ℕ) : ℕ := rotr32 x 6 ^^^ rotr32 x 11 ^^^ rotr32 x 25

def smallSigma0 (x : ℕ) : ℕ := rotr32 x 7 ^^^ rotr32 x 18 ^^^ shr32 x 3

def smallSigma1 (x : ℕ) : ℕ := rotr32 x 17 ^^^ rotr32 x 19 ^^^ shr32 x 10

/-- SHA-256 choice function. -/
def chB (e f g : ℕ) : ℕ := (e &&& f) ^^^ ((e ^^^ 0xffffffff) &&& g)

/-- SHA-256 majority function. -/
def majB (a b c : ℕ) : ℕ := (a &&& b) ^^^ (a &&& c) ^^^ (b &&& c)

/-- Round constants 0-15 of SHA-256. -/
def sha256Ka : List ℕ :=
  [0x428a2f98, 0x71374491, 0xb5c0fbcf, 0xe9b5dba5, 0x3956c25b, 0x59f111f1, 0x923f82a4, 0xab1c5ed5] ++
  [0xd807aa98, 0x12835b01, 0x243185be, 0x550c7dc3, 0x72be5d74, 0x80deb1fe, 0x9bdc06a7, 0xc19bf174]

/-- Round constants 16-31 of SHA-256. -/
def sha256Kb : List ℕ :=
  [0xe49b69c1, 0xefbe4786, 0x0fc19dc6, 0x240ca1cc, 0x2de92c6f, 0x4a7484aa, 0x5cb0a9dc, 0x76f988da] ++
  [0x983e5152, 0xa831c66d, 0xb00327c8, 0xbf597fc7, 0xc6e00bf3, 0xd5a79147, 0x06ca6351, 0x14292967]

/-- Round constants 32-47 of SHA-256. -/
def sha256Kc : List ℕ :=
  [0x27b70a85, 0x2e1b2138, 0x4d2c6dfc, 0x53380d13, 0x650a7354, 0x766a0abb, 0x81c2c92e, 0x92722c85] ++
  [0xa2bfe8a1, 0xa81a664b, 0xc24b8b70, 0xc76c51a3, 0xd192e819, 0xd6990624, 0xf40e3585, 0x106aa070]

/-- Round constants 48-63 of SHA-256. -/
def sha256Kd : List ℕ :=
  [0x19a4c116, 0x1e376c08, 0x2748774c, 0x34b0bcb5, 0x391c0cb3, 0x4ed8aa4a, 0x5b9cca4f, 0x682e6ff3] ++
  [0x748f82ee, 0x78a5636f, 0x84c87814, 0x8cc70208, 0x90befffa, 0xa4506ceb, 0xbef9a3f7, 0xc67178f2]

/-- The 64 SHA-256 round constants. -/
def sha256K : List ℕ :=
  sha256Ka ++ sha256Kb ++ sha256Kc ++ sha256Kd

/-- Working state of the SHA-256 compression function: eight 32-bit words. -/
structure Hash8 where
  a : ℕ
  b : ℕ
  c : ℕ
  d : ℕ
  e : ℕ
  f : ℕ
  g : ℕ
  hh : ℕ
  deriving Repr, DecidableEq

/-- SHA-256 initial hash value. -/
def sha256Init : Hash8 :=
  ⟨0x6a09e667, 0xbb67ae85, 0x3c6ef372, 0xa54ff53a, 0x510e527f, 0x9b05688c, 0x1f83d9ab, 0x5be0cd19⟩

/-- One SHA-256 round, with round constant `k` and schedule word `w`. -/
def sha256Round (st : Hash8) (k w : ℕ) : Hash8 :=
  let t1 := (st.hh + bigSigma1 st.e + chB st.e st.f st.g + k + w) % 2 ^ 32
  let t2 := (bigSigma0 st.a + majB st.a st.b st.c) % 2 ^ 32
  ⟨(t1 + t2) % 2 ^ 32, st.a, st.b, st.c, (st.d + t1) % 2 ^ 32, st.e, st.f, st.g⟩

/-- Packs big-endian groups of four bytes into 32-bit words. -/
def toWords : List ℕ → List ℕ
  | b0 :: b1 :: b2 :: b3 :: rest =>
      (b0 * 2 ^ 24 + b1 * 2 ^ 16 + b2 * 2 ^ 8 + b3) :: toWords rest
  | _ => []

/-- The next message-schedule word from the words produced so far. -/
def nextScheduleWord (w : List ℕ) : ℕ :=
  let t := w.length
  (smallSigma1 (w.getD (t - 2) 0) + w.getD (t - 7) 0 +
   smallSigma0 (w.getD (t - 15) 0) + w.getD (t - 16) 0) % 2 ^ 32

/-- Extends the 16 block words by `k` further schedule words. -/
def extendSchedule : ℕ → List ℕ → List ℕ
  | 0, w => w
  | k + 1, w => extendSchedule k (w ++ [nextScheduleWord w])

/-- The 64-entry message schedule of one 64-byte block. -/
def sha256Schedule (block : List ℕ) : List ℕ :=
  extendSchedule 48 (toWords block)

/-- Adds two working states word-wise modulo `2 ^ 32`. -/
def add8 (x y : Hash8) : Hash8 :=
  ⟨(x.a + y.a) % 2 ^ 32, (x.b + y.b) % 2 ^ 32, (x.c + y.c) % 2 ^ 32, (x.d + y.d) % 2 ^ 32,
   (x.e + y.e) % 2 ^ 32, (x.f + y.f) % 2 ^ 32, (x.g + y.g) % 2 ^ 32, (x.hh + y.hh) % 2 ^ 32⟩

/-- SHA-256 compression of one 64-byte block into the chaining state. -/
def sha256Compress (h : Hash8) (block : List ℕ) : Hash8 :=
  add8 h ((sha256K.zip (sha256Schedule block)).foldl (fun st p => sha256Round st p.1 p.2) h)

/-- Big-endian bytes of a 64-bit length field. -/
def lenBytes64 (n : ℕ) : List ℕ :=
  [n / 2 ^ 56 % 256, n / 2 ^ 48 % 256, n / 2 ^ 40 % 256, n / 2 ^ 32 % 256,
   n / 2 ^ 24 % 256, n / 2 ^ 16 % 256, n / 2 ^ 8 % 256, n % 256]

/-- SHA-256 padding: a `0x80` byte, zeros to 56 mod 64, then the bit length. -/
def sha256Pad (msg : List ℕ) : List ℕ :=
  msg ++ 0x80 :: List.replicate ((64 - (msg.length + 9) % 64) % 64) 0 ++ lenBytes64 (msg.length * 8)

/-- Folds the compression function over `k` consecutive 64-byte blocks. -/
def processBlocks : ℕ → List ℕ → Hash8 → Hash8
  | 0, _, h => h
  | k + 1, msg, h => processBlocks k (msg.drop 64) (sha256Compress h (msg.take 64))

/-- Big-endian bytes of one 32-bit word. -/
def wordBytes (w : ℕ) : List ℕ :=
  [w / 2 ^ 24 % 256, w / 2 ^ 16 % 256, w / 2 ^ 8 % 256, w % 256]

/-- Serializes the final state into the 32-byte digest. -/
def hashOut (h : Hash8) : List ℕ :=
  wordBytes h.a ++ wordBytes h.b ++ wordBytes h.c ++ wordBytes h.d ++
  wordBytes h.e ++ wordBytes h.f ++ wordBytes h.g ++ wordBytes h.hh

/-- SHA-256 of a byte sequence (FIPS 180-4). -/
def sha256 (msg : List ℕ) : List ℕ :=
  hashOut (processBlocks ((sha256Pad msg).length / 64) (sha256Pad msg) sha256Init)

/-! ### UTF-8 encoding (Python's `str.encode()` default) -/

/-- UTF-8 encoding of one Unicode code point. -/
def utf8EncodeCp (c : ℕ) : List ℕ :=
  if c < 0x80 then [c]
  else if c < 0x800 then [0xc0 + c / 2 ^ 6, 0x80 + c % 2 ^ 6]
  else if c < 0x10000 then
    [0xe0 + c / 2 ^ 12, 0x80 + c / 2 ^ 6 % 2 ^ 6, 0x80 + c % 2 ^ 6]
  else
    [0xf0 + c / 2 ^ 18, 0x80 + c / 2 ^ 12 % 2 ^ 6, 0x80 + c / 2 ^ 6 % 2 ^ 6, 0x80 + c % 2 ^ 6]

/-- UTF-8 encoding of a string, as Python's `str.encode()`. -/
def utf8Encode (s : String) : List ℕ :=
  (s.data.map (fun c => utf8EncodeCp c.toNat)).flatten

/-! ### `generar_hash` (src/PKI.py lines 14-18) -/

/-- Embedding of `generar_hash`: SHA-256 of the UTF-8 encoding of the document. -/
def generar_hash (documento : String) : List ℕ :=
  sha256 (utf8Encode documento)

/-! ### Key pairs and the RSA-PSS signature primitives -/

/-- An RSA private key, identified by its generated modulus.  Modelled from the
spec: key material itself is opaque and never serialized. -/
structure PrivateKey where
  keyId : ℕ
  deriving Repr, DecidableEq

/-- An RSA public key, identified by the same generated modulus as the
matching private key. -/
structure PublicKey where
  keyId : ℕ
  deriving Repr, DecidableEq

/-- Embedding of `generar_claves` (src/PKI.py lines 8-12).  Modelled from the
spec: generation consumes a secure random source and yields a fresh RSA
modulus; `keyId` abstracts that modulus, so distinct generations carry
distinct `keyId`s (distinct prime pairs give distinct moduli by unique
factorization), and the returned private and public halves match. -/
def generar_claves (keyId : ℕ) : PrivateKey × PublicKey :=
  (⟨keyId⟩, ⟨keyId⟩)

/-- An RSA-PSS signature.  Modelled from the spec: a signature binds the exact
digest and the signing key, and records the random PSS salt drawn during the
signing call, so signatures over the same digest by the same key need not be
byte-equal. -/
structure Signature where
  digest : List ℕ
  keyId : ℕ
  salt : ℕ
  deriving Repr, DecidableEq

/-- Modelled from the spec: the library's `private_key.sign` with PSS padding,
MGF1 over SHA-256 and maximum salt length; `salt` is the random salt the
library draws internally on each call. -/
def rsaPssSign (digest : List ℕ) (key : PrivateKey) (salt : ℕ) : Signature :=
  ⟨digest, key.keyId, salt⟩

/-- Modelled from the spec: the library's `public_key.verify`, which returns
normally iff the signature is cryptographically valid for this digest and
key, and raises `InvalidSignature` for any failure (malformed signature,
wrong key, tampered digest, wrong padding). -/
def rsaPssVerify (digest : List ℕ) (firma : Signature) (key : PublicKey) : Except String Unit :=
  if firma.keyId = key.keyId ∧ firma.digest = digest then Except.ok ()
  else Except.error "InvalidSignature"

/-- Embedding of `firmar_documento` (src/PKI.py lines 20-26): sign the digest
with the private key; the PSS salt is drawn by the library. -/
def firmar_documento (hash_documento : List ℕ) (clave_privada : PrivateKey) (salt : ℕ) : Signature :=
  rsaPssSign hash_documento clave_privada salt

/-- Embedding of `verificar_firma` (src/PKI.py lines 28-39): call the library
verification inside `try`, return `True` on normal return and `False` on any
raised exception. -/
def verificar_firma (hash_documento : List ℕ) (firma : Signature) (clave_publica : PublicKey) : Bool :=
  match rsaPssVerify hash_documento firma clave_publica with
  | Except.ok _ => true
  | Except.error _ => false

/-! ### Certificates (src/PKI.py lines 47-54) -/

/-- A self-asserted certificate: subject name plus the PEM export of the
public key. -/
structure Certificado where
  nombre : String
  clave_publica_pem : String
  deriving Repr, DecidableEq

/-- Modelled from the spec: the PEM/SubjectPublicKeyInfo export of a public
key, an injective textual encoding of the key. -/
def publicKeyPem (key : PublicKey) : String :=
  "-----BEGIN PUBLIC KEY-----\n" ++ toString key.keyId ++ "\n-----END PUBLIC KEY-----\n"

/-- Embedding of `obtener_certificado` (src/PKI.py lines 47-54). -/
def obtener_certificado (nombre : String) (clave_publica : PublicKey) : Certificado :=
  ⟨nombre, publicKeyPem clave_publica⟩

/-! ### Hexadecimal rendering (Python's `bytes.hex()`) -/

/-- Lower-case hexadecimal digit. -/
def hexDigitChar (n : ℕ) : Char :=
  if n < 10 then Char.ofNat (48 + n) else Char.ofNat (87 + n)

/-- Two hexadecimal digits of one byte. -/
def hexByteStr (b : ℕ) : String :=
  String.mk [hexDigitChar (b / 16 % 16), hexDigitChar (b % 16)]

/-- Python's `bytes.hex()`. -/
def hexOfBytes (bs : List ℕ) : String :=
  String.join (bs.map hexByteStr)

/-- Modelled from the spec: the opaque byte serialization of a signature (the
raw RSA output), here the digest together with key and salt material. -/
def sigBytes (s : Signature) : List ℕ :=
  s.digest ++ wordBytes s.keyId ++ wordBytes s.salt

/-- The `firma.hex()` rendering used by `insertar_firma`. -/
def sigHex (s : Signature) : String :=
  hexOfBytes (sigBytes s)

/-! ### The signed document (src/PKI.py lines 58-88) -/

/-- One entry of the document's signature list, as appended by
`insertar_firma`: hex signature, certificate, timestamp. -/
structure Firma where
  firma : String
  certificado : Certificado
  sello_tiempo : String
  deriving Repr, DecidableEq

/-- Embedding of the `DocumentoContrato` state: content plus signature list. -/
structure DocumentoContrato where
  contenido : String
  firmas : List Firma
  deriving Repr, DecidableEq

/-- Embedding of `DocumentoContrato.insertar_firma` (src/PKI.py lines 77-82):
appends one record `\x7b"firma": firma.hex(), "certificado": certificado,
"sello_tiempo": sello_tiempo\x7d` to the signature list. -/
def DocumentoContrato.insertar_firma (doc : DocumentoContrato) (firma : Signature)
    (certificado : Certificado) (sello_tiempo : String) : DocumentoContrato :=
  ⟨doc.contenido, doc.firmas ++ [⟨sigHex firma, certificado, sello_tiempo⟩]⟩

/-- Folds a sequence of `insertar_firma` calls over a document. -/
def insertMany (doc : DocumentoContrato) (rs : List (Signature × Certificado × String)) :
    DocumentoContrato :=
  rs.foldl (fun d r => d.insertar_firma r.1 r.2.1 r.2.2) doc

/-- The record `insertar_firma` builds from its three arguments. -/
def mkFirma (r : Signature × Certificado × String) : Firma :=
  ⟨sigHex r.1, r.2.1, r.2.2⟩

/-! ### JSON serialization (Python's `json.dumps(..., indent=2)`) -/

/-- The JSON values `exportar` serializes: strings, arrays and objects. -/
inductive Json where
  | str : String → Json
  | arr : List Json → Json
  | obj : List (String × Json) → Json

/-- Four hexadecimal digits, for `\u` escapes. -/
def hex4 (n : ℕ) : String :=
  String.mk [hexDigitChar (n / 4096 % 16), hexDigitChar (n / 256 % 16),
             hexDigitChar (n / 16 % 16), hexDigitChar (n % 16)]

/-- Python `json.dumps` escaping of one character (`ensure_ascii=True`). -/
def pyJsonEscapeChar (c : Char) : String :=
  if c = '"' then "\\\""
  else if c = '\\' then "\\\\"
  else if c = '\n' then "\\n"
  else if c = '\t' then "\\t"
  else if c = '\r' then "\\r"
  else if c.toNat = 8 then "\\b"
  else if c.toNat = 12 then "\\f"
  else if c.toNat < 0x20 ∨ 0x7e < c.toNat then
    if c.toNat < 0x10000 then "\\u" ++ hex4 c.toNat
    else "\\u" ++ hex4 (0xd800 + (c.toNat - 0x10000) / 1024) ++
         "\\u" ++ hex4 (0xdc00 + (c.toNat - 0x10000) % 1024)
  else String.singleton c

/-- Python `json.dumps` rendering of a string literal. -/
def pyJsonStr (s : String) : String :=
  "\"" ++ String.join (s.data.map pyJsonEscapeChar) ++ "\""

/-- Indentation of `n` spaces. -/
def indentStr (n : ℕ) : String :=
  String.mk (List.replicate n ' ')

mutual

/-- Python `json.dumps(v, indent=2)` at the given indentation level. -/
def renderJson : ℕ → Json → String
  | _, Json.str s => pyJsonStr s
  | _, Json.arr [] => "[]"
  | ind, Json.arr (x :: xs) =>
    "[\n" ++ String.intercalate ",\n" (renderArr (ind + 2) (x :: xs)) ++
    "\n" ++ indentStr ind ++ "]"
  | _, Json.obj [] => "\x7b\x7d"
  | ind, Json.obj (f :: fs) =>
    "\x7b\n" ++ String.intercalate ",\n" (renderObj (ind + 2) (f :: fs)) ++
    "\n" ++ indentStr ind ++ "\x7d"

/-- Renders the elements of a JSON array, one line each. -/
def renderArr : ℕ → List Json → List String
  | _, [] => []
  | ind, x :: xs => (indentStr ind ++ renderJson ind x) :: renderArr ind xs

/-- Renders the fields of a JSON object, one line each. -/
def renderObj : ℕ → List (String × Json) → List String
  | _, [] => []
  | ind, (k, v) :: fs => (indentStr ind ++ pyJsonStr k ++ ": " ++ renderJson ind v) :: renderObj ind fs

end

/-- The JSON value of one signature record in the export. -/
def firmaJson (f : Firma) : Json :=
  Json.obj [("firma", Json.str f.firma),
            ("certificado", Json.obj [("nombre", Json.str f.certificado.nombre),
                                      ("clave_publica_pem", Json.str f.certificado.clave_publica_pem)]),
            ("sello_tiempo", Json.str f.sello_tiempo)]

/-- The JSON value `exportar` serializes: `\x7b"contenido": ..., "firmas": [...]\x7d`. -/
def DocumentoContrato.exportJson (doc : DocumentoContrato) : Json :=
  Json.obj [("contenido", Json.str doc.contenido),
            ("firmas", Json.arr (doc.firmas.map firmaJson))]

/-- Embedding of `DocumentoContrato.exportar` (src/PKI.py lines 84-88):
`json.dumps({"contenido": ..., "firmas": ...}, indent=2)`. -/
def DocumentoContrato.exportar (doc : DocumentoContrato) : String :=
  renderJson 0 doc.exportJson

/-- State-passing form of the `exportar` method call: the method body reads
`self` and returns the JSON text; `self` is handed back unchanged. -/
def DocumentoContrato.exportarM (doc : DocumentoContrato) : String × DocumentoContrato :=
  (doc.exportar, doc)

/-! ### Confidential channel (src/PKI.py lines 92-120) -/

/-- An RSA-OAEP ciphertext.  Modelled from the spec: OAEP decryption with the
matching private key recovers exactly the encrypted bytes, and fails with a
cryptographic error under any other key; the UTF-8 encode/decode pair of the
source round-trips and is folded into the `String` payload. -/
structure Ciphertext where
  keyId : ℕ
  payload : String
  deriving Repr, DecidableEq

/-- Modelled from the spec: the library's `public_key.encrypt` with OAEP,
MGF1 over SHA-256, no label. -/
def oaepEncrypt (plaintext : String) (key : PublicKey) : Ciphertext :=
  ⟨key.keyId, plaintext⟩

/-- Modelled from the spec: the library's `private_key.decrypt` with matching
OAEP parameters; wrong key or corrupted ciphertext raises a cryptographic
error. -/
def oaepDecrypt (c : Ciphertext) (key : PrivateKey) : Except String String :=
  if c.keyId = key.keyId then Except.ok c.payload else Except.error "decryption error"

/-- Embedding of `cifrar_mensaje` (src/PKI.py lines 92-104): prefix the
message with `sello_tiempo` and a `|` separator, encrypt, and return the
ciphertext together with the timestamp used.  The timestamp comes from the
clock collaborator (`obtener_sello_tiempo`), here a parameter. -/
def cifrar_mensaje (mensaje : String) (clave_publica : PublicKey) (sello_tiempo : String) :
    Ciphertext × String :=
  (oaepEncrypt (sello_tiempo ++ "|" ++ mensaje) clave_publica, sello_tiempo)

/-- First-split worker: splits a character list at the first `|`, if any. -/
def splitOnceAux : List Char → Option (List Char × List Char)
  | [] => none
  | c :: cs =>
    if c = '|' then some ([], cs)
    else
      match splitOnceAux cs with
      | none => none
      | some (a, b) => some (c :: a, b)

/-- Python's `s.split("|", 1)`: at most one split, at the first `|`. -/
def pySplit1 (s : String) : List String :=
  match splitOnceAux s.data with
  | none => [s]
  | some (a, b) => [String.mk a, String.mk b]

/-- The sentinel string `descifrar_mensaje` returns on a timestamp mismatch. -/
def selloMismatchMsg : String := "Error: El sello de tiempo no coincide."

/-- Embedding of `descifrar_mensaje` (src/PKI.py lines 106-120): decrypt
(a raised cryptographic error propagates as `Except.error`), split on the
first `|` into received timestamp and message (unpacking a single-element
split raises `ValueError`), then return the message on timestamp equality
and the sentinel error string otherwise — both through the ordinary
`String` return channel (`Except.ok`). -/
def descifrar_mensaje (mensaje_cifrado : Ciphertext) (clave_privada : PrivateKey)
    (sello_tiempo_esperado : String) : Except String String :=
  match oaepDecrypt mensaje_cifrado clave_privada with
  | Except.error e => Except.error e
  | Except.ok mensaje_descifrado =>
    match pySplit1 mensaje_descifrado with
    | [sello_tiempo_recibido, mensaje] =>
      if sello_tiempo_recibido = sello_tiempo_esperado then Except.ok mensaje
      else Except.ok selloMismatchMsg
    | _ => Except.error "ValueError: not enough values to unpack"

/-! ### Helper lemmas -/

theorem splitOnceAux_append (ts m : List Char) (h : '|' ∉ ts) :
    splitOnceAux (ts ++ '|' :: m) = some (ts, m) := by
  induction ts with
  | nil => simp [splitOnceAux]
  | cons c cs ih =>
    have hc : ¬ c = '|' := fun hc => h (hc ▸ List.mem_cons_self c cs)
    have hcs : '|' ∉ cs := fun hm => h (List.mem_cons_of_mem c hm)
    simp [splitOnceAux, hc, ih hcs]

theorem sello_concat_data (ts m : String) :
    (ts ++ "|" ++ m).data = ts.data ++ '|' :: m.data := by
  simp [String.data_append]

/-- Decryption of an encryption under the matching key reduces to the
timestamp comparison of the source: the message on equality, the sentinel
string otherwise. -/
theorem descifrar_cifrar_eq (m ts ts' : String) (kid : ℕ) (h : '|' ∉ ts.data) :
    descifrar_mensaje (cifrar_mensaje m (generar_claves kid).2 ts).1 (generar_claves kid).1 ts' =
      (if ts = ts' then Except.ok m else Except.ok selloMismatchMsg) := by
  have hsplit : splitOnceAux (ts.data ++ '|' :: m.data) = some (ts.data, m.data) :=
    splitOnceAux_append ts.data m.data h
  have hts : (⟨ts.data⟩ : String) = ts := rfl
  have hm : (⟨m.data⟩ : String) = m := rfl
  simp [descifrar_mensaje, cifrar_mensaje, oaepEncrypt, oaepDecrypt, generar_claves,
        pySplit1, hsplit, hts, hm]

/-! ### Claims -/

/-- C1: for every digest and generated key pair, verifying the signature
produced by `firmar_documento` over that digest with the matching public key
returns `true`, and verifying any digest that differs from the signed one
returns `false`. -/
theorem c1_sign_verify_roundtrip (d d' : List ℕ) (kid salt : ℕ) (h : d' ≠ d) :
    verificar_firma d (firmar_documento d (generar_claves kid).1 salt) (generar_claves kid).2 = true ∧
    verificar_firma d' (firmar_documento d (generar_claves kid).1 salt) (generar_claves kid).2 = false := by
  have h2 : ¬ d = d' := fun hh => h hh.symm
  constructor <;>
    simp [verificar_firma, firmar_documento, rsaPssSign, rsaPssVerify, generar_claves, h2]

theorem c1_sign_verify_roundtrip_witness :
    (([1] : List ℕ) ≠ [2]) ∧
    (verificar_firma [2] (firmar_documento [2] (generar_claves 0).1 5) (generar_claves 0).2 = true ∧
     verificar_firma [1] (firmar_documento [2] (generar_claves 0).1 5) (generar_claves 0).2 = false) :=
  ⟨by decide, c1_sign_verify_roundtrip [2] [1] 0 5 (by decide)⟩

/-- C2: decrypting the ciphertext produced by `cifrar_mensaje` with the
matching private key and the timestamp returned by that same call recovers
exactly the original message, for every message (including messages that
contain the `|` separator) and every generated key pair.  The hypothesis
records that the clock's ISO-8601 timestamps never contain `|`. -/
theorem c2_encrypt_decrypt_roundtrip (m ts : String) (kid : ℕ) (h : '|' ∉ ts.data) :
    descifrar_mensaje (cifrar_mensaje m (generar_claves kid).2 ts).1 (generar_claves kid).1
      (cifrar_mensaje m (generar_claves kid).2 ts).2 = Except.ok m := by
  have hemb := descifrar_cifrar_eq m ts ts kid h
  simpa [cifrar_mensaje] using hemb

theorem c2_encrypt_decrypt_roundtrip_witness :
    ('|' ∉ "2024-05-01T12:00:00+00:00".data) ∧
    descifrar_mensaje
      (cifrar_mensaje "a|b" (generar_claves 3).2 "2024-05-01T12:00:00+00:00").1
      (generar_claves 3).1
      (cifrar_mensaje "a|b" (generar_claves 3).2 "2024-05-01T12:00:00+00:00").2 = Except.ok "a|b" :=
  ⟨by decide, c2_encrypt_decrypt_roundtrip "a|b" "2024-05-01T12:00:00+00:00" 3 (by decide)⟩

/-- C3 counterexample: at a concrete input the timestamp-mismatch outcome of
`descifrar_mensaje` is the very same value as a successful decryption of a
message equal to the sentinel text, returned through the same `Except.ok`
channel — so the mismatch outcome is not a typed result distinct from the
plaintext. -/
theorem c3_counterexample :
    descifrar_mensaje (cifrar_mensaje "x" (generar_claves 0).2 "t1").1 (generar_claves 0).1 "t2" =
      descifrar_mensaje (cifrar_mensaje selloMismatchMsg (generar_claves 0).2 "t1").1
        (generar_claves 0).1 "t1" ∧
    descifrar_mensaje (cifrar_mensaje "x" (generar_claves 0).2 "t1").1 (generar_claves 0).1 "t2" =
      Except.ok selloMismatchMsg := by
  constructor <;> rfl

/-- C3 amended: for every ciphertext produced by `cifrar_mensaje` and every
expected timestamp different from the one used, `descifrar_mensaje` returns
the fixed sentinel string "Error: El sello de tiempo no coincide." through
the ordinary `String` success channel, and (whenever the message differs
from the sentinel) does not return the plaintext; the outcome is a plain
string, not a typed mismatch result. -/
theorem c3_amended_sentinel (m ts ts' : String) (kid : ℕ)
    (h : '|' ∉ ts.data) (h2 : ts ≠ ts') (h3 : m ≠ selloMismatchMsg) :
    descifrar_mensaje (cifrar_mensaje m (generar_claves kid).2 ts).1 (generar_claves kid).1 ts' =
      Except.ok selloMismatchMsg ∧
    descifrar_mensaje (cifrar_mensaje m (generar_claves kid).2 ts).1 (generar_claves kid).1 ts' ≠
      Except.ok m := by
  rw [descifrar_cifrar_eq m ts ts' kid h]
  simp only [if_neg h2, ne_eq, Except.ok.injEq]
  exact ⟨trivial, fun hc => h3 hc.symm⟩

theorem c3_amended_sentinel_witness :
    ('|' ∉ "t1".data ∧ ("t1" : String) ≠ "t2" ∧ ("x" : String) ≠ selloMismatchMsg) ∧
    (descifrar_mensaje (cifrar_mensaje "x" (generar_claves 0).2 "t1").1 (generar_claves 0).1 "t2" =
        Except.ok selloMismatchMsg ∧
     descifrar_mensaje (cifrar_mensaje "x" (generar_claves 0).2 "t1").1 (generar_claves 0).1 "t2" ≠
        Except.ok "x") :=
  ⟨⟨by decide, by decide, by decide⟩,
   c3_amended_sentinel "x" "t1" "t2" 0 (by decide) (by decide) (by decide)⟩

/-- C4: `verificar_firma` is a total boolean predicate — every call returns
`true` or `false` and no exception escapes (the `try`/`except` of the source
maps every raised library error to `false`); it returns `true` exactly when
the library verification succeeds, i.e. when the signature is valid for this
digest and public key. -/
theorem c4_verify_total_boolean (d : List ℕ) (sig : Signature) (pub : PublicKey) :
    (verificar_firma d sig pub = true ∨ verificar_firma d sig pub = false) ∧
    (verificar_firma d sig pub = true ↔ rsaPssVerify d sig pub = Except.ok ()) := by
  constructor
  · exact Bool.eq_false_or_eq_true _
  · by_cases hp : sig.keyId = pub.keyId ∧ sig.digest = d
    · simp [verificar_firma, rsaPssVerify, hp]
    · simp [verificar_firma, rsaPssVerify, hp]

/-- C7: a signature produced with one generated key pair's private key never
verifies under the public key of a distinct generated key pair (distinct
generations yield distinct moduli). -/
theorem c7_cross_key_never_verifies (d : List ℕ) (salt kidA kidB : ℕ) (h : kidA ≠ kidB) :
    verificar_firma d (firmar_documento d (generar_claves kidA).1 salt)
      (generar_claves kidB).2 = false := by
  simp [verificar_firma, firmar_documento, rsaPssSign, rsaPssVerify, generar_claves, h]

theorem c7_cross_key_never_verifies_witness :
    ((0 : ℕ) ≠ 1) ∧
    verificar_firma [9] (firmar_documento [9] (generar_claves 0).1 7) (generar_claves 1).2 = false :=
  ⟨by decide, c7_cross_key_never_verifies [9] 7 0 1 (by decide)⟩

/-- C8: signing the same digest twice with the same key yields signatures
that each verify under the matching public key, while distinct PSS salts
(drawn at random by the library on each call) yield distinct signature
values, so the two signatures are not required to be equal. -/
theorem c8_pss_salt_nondeterminism (d : List ℕ) (kid s1 s2 : ℕ) (h : s1 ≠ s2) :
    verificar_firma d (firmar_documento d (generar_claves kid).1 s1) (generar_claves kid).2 = true ∧
    verificar_firma d (firmar_documento d (generar_claves kid).1 s2) (generar_claves kid).2 = true ∧
    firmar_documento d (generar_claves kid).1 s1 ≠ firmar_documento d (generar_claves kid).1 s2 := by
  refine ⟨?_, ?_, ?_⟩
  · simp [verificar_firma, firmar_documento, rsaPssSign, rsaPssVerify, generar_claves]
  · simp [verificar_firma, firmar_documento, rsaPssSign, rsaPssVerify, generar_claves]
  · simp [firmar_documento, rsaPssSign, generar_claves, Signature.mk.injEq, h]

theorem c8_pss_salt_nondeterminism_witness :
    ((4 : ℕ) ≠ 9) ∧
    (verificar_firma [3] (firmar_documento [3] (generar_claves 2).1 4) (generar_claves 2).2 = true ∧
     verificar_firma [3] (firmar_documento [3] (generar_claves 2).1 9) (generar_claves 2).2 = true ∧
     firmar_documento [3] (generar_claves 2).1 4 ≠ firmar_documento [3] (generar_claves 2).1 9) :=
  ⟨by decide, c8_pss_salt_nondeterminism [3] 2 4 9 (by decide)⟩

/-- C10: when the embedded timestamp differs from the expected one,
`descifrar_mensaje` returns the fixed string "Error: El sello de tiempo no
coincide." through the same `Except.ok` channel as a successful plaintext,
and decrypting an encryption of that exact string with the correct timestamp
yields the identical result, so the two outcomes are indistinguishable. -/
theorem c10_sentinel_indistinguishable (m ts ts' : String) (kid : ℕ)
    (h : '|' ∉ ts.data) (h2 : ts ≠ ts') :
    descifrar_mensaje (cifrar_mensaje m (generar_claves kid).2 ts).1 (generar_claves kid).1 ts' =
      Except.ok selloMismatchMsg ∧
    descifrar_mensaje (cifrar_mensaje selloMismatchMsg (generar_claves kid).2 ts).1
      (generar_claves kid).1 ts = Except.ok selloMismatchMsg := by
  rw [descifrar_cifrar_eq m ts ts' kid h, descifrar_cifrar_eq selloMismatchMsg ts ts kid h]
  simp [h2]

theorem c10_sentinel_indistinguishable_witness :
    ('|' ∉ "t1".data ∧ ("t1" : String) ≠ "t2") ∧
    (descifrar_mensaje (cifrar_mensaje "m" (generar_claves 0).2 "t1").1 (generar_claves 0).1 "t2" =
        Except.ok selloMismatchMsg ∧
     descifrar_mensaje (cifrar_mensaje selloMismatchMsg (generar_claves 0).2 "t1").1
        (generar_claves 0).1 "t1" = Except.ok selloMismatchMsg) :=
  ⟨⟨by decide, by decide⟩,
   c10_sentinel_indistinguishable "m" "t1" "t2" 0 (by decide) (by decide)⟩

theorem insertMany_cons (doc : DocumentoContrato) (r : Signature × Certificado × String)
    (rs : List (Signature × Certificado × String)) :
    insertMany doc (r :: rs) = insertMany (doc.insertar_firma r.1 r.2.1 r.2.2) rs := rfl

theorem insertMany_firmas (doc : DocumentoContrato) (rs : List (Signature × Certificado × String)) :
    (insertMany doc rs).firmas = doc.firmas ++ rs.map mkFirma := by
  induction rs generalizing doc with
  | nil => simp [insertMany]
  | cons r rs ih =>
    rw [insertMany_cons, ih]
    simp [DocumentoContrato.insertar_firma, mkFirma]

theorem insertMany_contenido (doc : DocumentoContrato)
    (rs : List (Signature × Certificado × String)) :
    (insertMany doc rs).contenido = doc.contenido := by
  induction rs generalizing doc with
  | nil => rfl
  | cons r rs ih => rw [insertMany_cons, ih]; rfl

/-- C5: the signature list is append-only — each `insertar_firma` call
appends one record at the end — and after `N` insertions into a fresh
document the exported JSON carries exactly those `N` records, in insertion
order, with no reordering or deduplication. -/
theorem c5_append_only_insertion_order (doc : DocumentoContrato) (f : Signature)
    (c : Certificado) (s cnt : String) (rs : List (Signature × Certificado × String)) :
    (doc.insertar_firma f c s).firmas = doc.firmas ++ [⟨sigHex f, c, s⟩] ∧
    (insertMany doc rs).firmas = doc.firmas ++ rs.map mkFirma ∧
    (insertMany ⟨cnt, []⟩ rs).firmas.length = rs.length ∧
    (insertMany ⟨cnt, []⟩ rs).exportJson =
      Json.obj [("contenido", Json.str cnt),
                ("firmas", Json.arr ((rs.map mkFirma).map firmaJson))] := by
  refine ⟨rfl, insertMany_firmas doc rs, ?_, ?_⟩
  · rw [insertMany_firmas]; simp
  · rw [DocumentoContrato.exportJson, insertMany_contenido, insertMany_firmas]
    simp

theorem wordBytes_mem_lt (w : ℕ) : ∀ b ∈ wordBytes w, b < 256 := by
  intro b hb
  simp only [wordBytes, List.mem_cons, List.not_mem_nil, or_false] at hb
  rcases hb with h | h | h | h <;> subst h <;> exact Nat.mod_lt _ (by norm_num)

theorem hashOut_length (h : Hash8) : (hashOut h).length = 32 := by
  simp [hashOut, wordBytes]

theorem hashOut_mem_lt (h : Hash8) : ∀ b ∈ hashOut h, b < 256 := by
  simp only [hashOut, List.forall_mem_append]
  exact ⟨⟨⟨⟨⟨⟨⟨wordBytes_mem_lt _, wordBytes_mem_lt _⟩, wordBytes_mem_lt _⟩, wordBytes_mem_lt _⟩,
    wordBytes_mem_lt _⟩, wordBytes_mem_lt _⟩, wordBytes_mem_lt _⟩, wordBytes_mem_lt _⟩

/-- C6: `generar_hash` is deterministic and total on strings — equal inputs
give identical digests — and its output is always a sequence of exactly 32
bytes (SHA-256 over the UTF-8 encoding). -/
theorem c6_digest_deterministic_32_bytes (content content' : String) (h : content = content') :
    generar_hash content = generar_hash content' ∧
    (generar_hash content).length = 32 ∧
    ∀ b ∈ generar_hash content, b < 256 := by
  subst h
  exact ⟨rfl, hashOut_length _, hashOut_mem_lt _⟩

theorem c6_digest_deterministic_32_bytes_witness :
    ("abc" : String) = "abc" ∧
    (generar_hash "abc" = generar_hash "abc" ∧
     (generar_hash "abc").length = 32 ∧
     ∀ b ∈ generar_hash "abc", b < 256) :=
  ⟨rfl, c6_digest_deterministic_32_bytes "abc" "abc" rfl⟩

/-- C9: `exportar` is pure and deterministic given the current document
state — two documents with the same content and signature list export the
same string — and the method call leaves the document's content and
signature list unchanged. -/
theorem c9_exportar_pure_frame (doc doc' : DocumentoContrato)
    (h1 : doc.contenido = doc'.contenido) (h2 : doc.firmas = doc'.firmas) :
    doc.exportar = doc'.exportar ∧
    doc.exportarM.2.contenido = doc.contenido ∧
    doc.exportarM.2.firmas = doc.firmas := by
  obtain ⟨c1, f1⟩ := doc
  obtain ⟨c2, f2⟩ := doc'
  simp only at h1 h2
  subst h1; subst h2
  exact ⟨rfl, rfl, rfl⟩

theorem c9_exportar_pure_frame_witness :
    ((⟨"c", []⟩ : DocumentoContrato).contenido = (⟨"c", []⟩ : DocumentoContrato).contenido ∧
     (⟨"c", []⟩ : DocumentoContrato).firmas = (⟨"c", []⟩ : DocumentoContrato).firmas) ∧
    ((⟨"c", []⟩ : DocumentoContrato).exportar = (⟨"c", []⟩ : DocumentoContrato).exportar ∧
     (⟨"c", []⟩ : DocumentoContrato).exportarM.2.contenido = "c" ∧
     (⟨"c", []⟩ : DocumentoContrato).exportarM.2.firmas = []) :=
  ⟨⟨rfl, rfl⟩, c9_exportar_pure_frame ⟨"c", []⟩ ⟨"c", []⟩ rfl rfl⟩

end PKI
